import Mathlib

/-!
Shallow embedding of the bidirectional-stream composition layer of
zengman/quic-go (`stream.go`) together with the contract surface of its two
external collaborators, the send half and the receive half.

The composition layer itself (`newStream`, `StreamID`, `Close`,
`CloseForShutdown`, `HandleRstStreamFrame`, `Finished`, and the two error
types `deadlineError` and `streamCanceledError`) is translated directly from
the source. The internals of `sendStream` and `receiveStream` and the
`protocol` package are not among the supplied sources; the parts of their
behaviour the composition layer depends on are modelled from the spec, each
marked `Modelled from the spec:` in its doc comment. Go callbacks
(`onData`, `queueControlFrame`) are functionalized: control frames a half
hands to the sink are recorded in that half's `queuedFrames` list, and
mutation becomes explicit state passing.
-/

namespace QuicGo

abbrev StreamID := Nat

abbrev ByteCount := Nat

abbrev ApplicationErrorCode := Nat

abbrev VersionNumber := Nat

/-- Opaque handle for the external flow controller; no claim depends on its
behaviour, only on it being threaded through construction. -/
abbrev FlowController := Nat

/-- `errorCodeStopping` (src/stream.go line 13). -/
def errorCodeStopping : ApplicationErrorCode := 0

/-- `errorCodeStoppingGQUIC` (src/stream.go line 14). -/
def errorCodeStoppingGQUIC : ApplicationErrorCode := 7

/-- Modelled from the spec: `protocol.VersionNumber.UsesIETFFrameFormat`
(the `internal/protocol` package is not among the supplied sources). The spec
fixes exactly one bit of behaviour per version: whether the wire format has a
distinct stop-sending frame type (modern IETF format) or lacks it (legacy
gQUIC format). Version numbers are naturals; the legacy gQUIC wire versions
are modelled as the numbers 39 and 43, and every other number — in particular
the zero value a Go `VersionNumber` field takes when never assigned — uses
the IETF frame format. -/
def VersionNumber.UsesIETFFrameFormat (v : VersionNumber) : Bool :=
  !(v == 39 || v == 43)

/-- Errors surfaced by the half-streams and by shutdown; a closed model of Go
`error` values appearing in this layer. -/
inductive GoError where
  | closeForCanceledStream (id : StreamID)
  | resetAfterFinishedReading
  | inconsistentFinalOffset (previous new : ByteCount)
  | connectionError (n : Nat)
deriving DecidableEq

/-- `wire.RstStreamFrame`: peer reset carrying an application error code and
the final byte offset of the peer's send direction. -/
structure RstStreamFrame where
  streamID : StreamID
  errorCode : ApplicationErrorCode
  byteOffset : ByteCount
deriving DecidableEq

/-- `wire.StopSendingFrame`: a directive that the local send half stop
sending, carrying an application error code. -/
structure StopSendingFrame where
  streamID : StreamID
  errorCode : ApplicationErrorCode
deriving DecidableEq

/-- Control frames a half can hand to the `queueControlFrame` sink. -/
inductive Frame where
  | rstStream (frame : RstStreamFrame)
  | stopSending (frame : StopSendingFrame)
deriving DecidableEq

/-- Modelled from the spec: the observable state of the send half (an
external collaborator; `send_stream.go` is not among the supplied sources).
Only the contract surface the composition layer calls is modelled:
`Close`, `getWriteOffset`, `Finished`, `CloseForShutdown`,
`HandleStopSendingFrame`, `StreamID`. `stopSendingReceived` records every
stop-sending directive routed to this half, newest first. -/
structure sendStream where
  streamID : StreamID
  version : VersionNumber
  flowController : FlowController
  writeOffset : ByteCount
  canceledWrite : Bool
  finishedWriting : Bool
  finishedFlag : Bool
  closedForShutdown : Option GoError
  stopSendingReceived : List StopSendingFrame
  queuedFrames : List Frame
deriving DecidableEq

/-- Modelled from the spec: a fresh send half; all state at its zero value. -/
def newSendStream (streamID : StreamID) (flowController : FlowController)
    (version : VersionNumber) : sendStream :=
  { streamID := streamID
    version := version
    flowController := flowController
    writeOffset := 0
    canceledWrite := false
    finishedWriting := false
    finishedFlag := false
    closedForShutdown := none
    stopSendingReceived := []
    queuedFrames := [] }

def sendStream.StreamID (s : sendStream) : StreamID :=
  s.streamID

/-- Modelled from the spec: graceful close of the send half. It fails when
the half was already reset/canceled; a repeated close is idempotent (returns
no error and re-marks the already-set final state), as the spec's
idempotency requirement on close demands. -/
def sendStream.Close (s : sendStream) : Option GoError × sendStream :=
  if s.canceledWrite then
    (some (GoError.closeForCanceledStream s.streamID), s)
  else
    (none, { s with finishedWriting := true })

/-- Modelled from the spec: the current write offset of the send half. -/
def sendStream.getWriteOffset (s : sendStream) : ByteCount :=
  s.writeOffset

/-- Modelled from the spec: whether the send half reached a terminal state. -/
def sendStream.Finished (s : sendStream) : Bool :=
  s.finishedFlag

/-- Modelled from the spec: abrupt local termination of the send half; no
peer notification, so no frame is queued and no FIN is marked. -/
def sendStream.CloseForShutdown (s : sendStream) (err : GoError) : sendStream :=
  { s with closedForShutdown := some err, finishedFlag := true }

/-- Modelled from the spec: a stop-sending directive delivered to the send
half instructs it to abandon sending; the directive is recorded. -/
def sendStream.HandleStopSendingFrame (s : sendStream) (frame : StopSendingFrame) :
    sendStream :=
  { s with stopSendingReceived := frame :: s.stopSendingReceived
           canceledWrite := true }

/-- Modelled from the spec: the observable state of the receive half (an
external collaborator; `receive_stream.go` is not among the supplied
sources). `onCloseCalls` records every final write offset handed over by the
composite's `Close`, newest first. -/
structure receiveStream where
  streamID : StreamID
  flowController : FlowController
  finishedReading : Bool
  canceledRead : Bool
  finalOffset : Option ByteCount
  resetCode : Option ApplicationErrorCode
  finishedFlag : Bool
  closedForShutdown : Option GoError
  onCloseCalls : List ByteCount
  queuedFrames : List Frame
deriving DecidableEq

/-- Modelled from the spec: a fresh receive half; all state at its zero
value. -/
def newReceiveStream (streamID : StreamID) (flowController : FlowController) :
    receiveStream :=
  { streamID := streamID
    flowController := flowController
    finishedReading := false
    canceledRead := false
    finalOffset := none
    resetCode := none
    finishedFlag := false
    closedForShutdown := none
    onCloseCalls := []
    queuedFrames := [] }

def receiveStream.StreamID (s : receiveStream) : StreamID :=
  s.streamID

/-- Modelled from the spec: the receive half rejects a reset that arrives
after reading already finished cleanly, or one whose final offset is
inconsistent with a previously recorded final offset; otherwise it accepts,
records the final offset and the error code, and becomes finished. On
rejection the error is returned and the half's state is unchanged. -/
def receiveStream.HandleRstStreamFrame (s : receiveStream) (frame : RstStreamFrame) :
    Option GoError × receiveStream :=
  if s.finishedReading then
    (some GoError.resetAfterFinishedReading, s)
  else
    match s.finalOffset with
    | some off =>
        if off == frame.byteOffset then
          (none, { s with resetCode := some frame.errorCode, finishedFlag := true })
        else
          (some (GoError.inconsistentFinalOffset off frame.byteOffset), s)
    | none =>
        (none, { s with finalOffset := some frame.byteOffset
                        resetCode := some frame.errorCode
                        finishedFlag := true })

/-- Modelled from the spec: `onClose` hands the receive half the final write
offset reached by the send half; the call is recorded. (Any gQUIC reset the
half may then emit when reading was canceled is internal to the half and
outside the modelled contract.) -/
def receiveStream.onClose (s : receiveStream) (offset : ByteCount) : receiveStream :=
  { s with onCloseCalls := offset :: s.onCloseCalls }

/-- Modelled from the spec: whether the receive half reached a terminal
state. -/
def receiveStream.Finished (s : receiveStream) : Bool :=
  s.finishedFlag

/-- Modelled from the spec: abrupt local termination of the receive half; no
peer notification, so no frame is queued. -/
def receiveStream.CloseForShutdown (s : receiveStream) (err : GoError) : receiveStream :=
  { s with closedForShutdown := some err, finishedFlag := true }

/-- `stream` (src/stream.go lines 35-40): the composite of one receive half,
one send half, and a `version` field. -/
structure stream where
  receiveStream : receiveStream
  sendStream : sendStream
  version : VersionNumber
deriving DecidableEq

/-- `newStream` (src/stream.go lines 64-74). The Go composite literal
assigns only the two embedded halves; the `version` field is not assigned
and therefore takes the Go zero value `0`. (The `onData` and
`queueControlFrame` callback parameters are functionalized into the halves'
recorded state and so do not appear.) -/
def newStream (streamID : StreamID) (flowController : FlowController)
    (version : VersionNumber) : stream :=
  { sendStream := newSendStream streamID flowController version
    receiveStream := newReceiveStream streamID flowController
    version := 0 }

/-- `stream.StreamID` (src/stream.go lines 76-80): served from the send half
exclusively; the result is the same for both halves. -/
def stream.StreamID (s : stream) : StreamID :=
  s.sendStream.StreamID

/-- `stream.Close` (src/stream.go lines 82-89): close the send half; on
error return it, otherwise notify the receive half of the final write
offset and return no error. -/
def stream.Close (s : stream) : Option GoError × stream :=
  match s.sendStream.Close with
  | (some err, ss) => (some err, { s with sendStream := ss })
  | (none, ss) =>
      (none, { s with sendStream := ss
                      receiveStream := s.receiveStream.onClose ss.getWriteOffset })

/-- `stream.CloseForShutdown` (src/stream.go lines 97-103): forward the same
error to both halves' abrupt close. -/
def stream.CloseForShutdown (s : stream) (err : GoError) : stream :=
  { s with sendStream := s.sendStream.CloseForShutdown err
           receiveStream := s.receiveStream.CloseForShutdown err }

/-- `stream.HandleStopSendingFrame`: not defined on `stream` in the source;
Go field promotion resolves it to the embedded send half's handler (the
receive half has none — the directive targets the local send path). -/
def stream.HandleStopSendingFrame (s : stream) (frame : StopSendingFrame) : stream :=
  { s with sendStream := s.sendStream.HandleStopSendingFrame frame }

/-- `stream.HandleRstStreamFrame` (src/stream.go lines 105-116): deliver the
reset to the receive half first; on rejection propagate the error; on
acceptance, when the composite's `version` field does not use the IETF frame
format, synthesize a stop-sending directive with the reset's error code and
route it through the ordinary stop-sending path. -/
def stream.HandleRstStreamFrame (s : stream) (frame : RstStreamFrame) :
    Option GoError × stream :=
  match s.receiveStream.HandleRstStreamFrame frame with
  | (some err, rs) => (some err, { s with receiveStream := rs })
  | (none, rs) =>
      let s1 : stream := { s with receiveStream := rs }
      if !(VersionNumber.UsesIETFFrameFormat s1.version) then
        (none, s1.HandleStopSendingFrame ⟨s1.StreamID, frame.errorCode⟩)
      else
        (none, s1)

/-- `stream.Finished` (src/stream.go lines 118-120): the conjunction of both
halves' finished predicates. -/
def stream.Finished (s : stream) : Bool :=
  s.sendStream.Finished && s.receiveStream.Finished

/-- `deadlineError` (src/stream.go lines 45-49). -/
structure deadlineError where
deriving DecidableEq

def deadlineError.Error (_ : deadlineError) : String :=
  "deadline exceeded"

def deadlineError.Temporary (_ : deadlineError) : Bool :=
  true

def deadlineError.Timeout (_ : deadlineError) : Bool :=
  true

/-- `streamCanceledError` (src/stream.go lines 53-59): wraps a descriptive
error (modelled as its message) and an application error code. -/
structure streamCanceledError where
  error : String
  errorCode : ApplicationErrorCode
deriving DecidableEq

def streamCanceledError.Canceled (_ : streamCanceledError) : Bool :=
  true

def streamCanceledError.ErrorCode (e : streamCanceledError) : ApplicationErrorCode :=
  e.errorCode

/-- Concrete stream used by several witness theorems: freshly constructed
with identifier 4 and the legacy gQUIC version 39. -/
def wOkStream : stream :=
  newStream 4 0 39

/-- Concrete stream whose send half was already reset, so a graceful close
fails. -/
def wErrStream : stream :=
  { newStream 4 0 39 with
      sendStream := { newSendStream 4 0 39 with canceledWrite := true } }

/-- Concrete stream whose receive half already finished reading cleanly, so
it rejects any incoming reset. -/
def wRejStream : stream :=
  { newStream 4 0 39 with
      receiveStream := { newReceiveStream 4 0 with finishedReading := true } }

/-- Concrete stream in which both halves report finished. -/
def wFinStream : stream :=
  { newStream 4 0 39 with
      sendStream := { newSendStream 4 0 39 with finishedFlag := true }
      receiveStream := { newReceiveStream 4 0 with finishedFlag := true } }

/-- Claim C1, evaluated at the failing input: a stream constructed with the
legacy gQUIC version 39 receives a peer reset with error code 3 and final
offset 10; the receive half accepts the reset, yet no stop-sending directive
reaches the send half — contrary to the claim, which requires one carrying
code 3 for legacy-constructed streams. The cause is that `newStream` never
assigns the composite's `version` field, so the branch sees the zero
version, which uses the IETF frame format. -/
theorem legacy_constructed_stream_synthesizes_no_stop_sending :
    VersionNumber.UsesIETFFrameFormat 39 = false
    ∧ (stream.HandleRstStreamFrame (newStream 4 0 39) ⟨4, 3, 10⟩).1 = none
    ∧ (stream.HandleRstStreamFrame (newStream 4 0 39) ⟨4, 3, 10⟩).2.sendStream.stopSendingReceived
        = [] := by
  decide

/-- Claim C2: `Close` closes the send half first; if the send half's close
returns an error, that error is returned and the receive half is untouched;
on success the receive half's `onClose` is invoked with exactly the send
half's final write offset, and no error is returned. -/
theorem close_send_first_then_notify_receive (s : stream) :
    (∀ e, (s.sendStream.Close).1 = some e →
      stream.Close s = (some e, { s with sendStream := (s.sendStream.Close).2 }))
    ∧ ((s.sendStream.Close).1 = none →
      stream.Close s =
        (none, { s with
                  sendStream := (s.sendStream.Close).2
                  receiveStream :=
                    s.receiveStream.onClose (s.sendStream.Close).2.getWriteOffset })) := by
  cases hc : s.sendStream.canceledWrite <;>
    simp [stream.Close, sendStream.Close, hc]

/-- Witness for claim C2: both branches of `close_send_first_then_notify_receive`
exercised on concrete streams. -/
theorem close_send_first_then_notify_receive_witness :
    stream.Close wErrStream
      = (some (GoError.closeForCanceledStream 4),
         { wErrStream with sendStream := (wErrStream.sendStream.Close).2 })
    ∧ stream.Close wOkStream
      = (none, { wOkStream with
                  sendStream := (wOkStream.sendStream.Close).2
                  receiveStream :=
                    wOkStream.receiveStream.onClose
                      (wOkStream.sendStream.Close).2.getWriteOffset }) :=
  ⟨(close_send_first_then_notify_receive wErrStream).1
      (GoError.closeForCanceledStream 4) (by decide),
   (close_send_first_then_notify_receive wOkStream).2 (by decide)⟩

/-- Claim C3: a rejected reset propagates exactly the receive half's error
and nothing else happens: the send half is untouched (in particular no
stop-sending directive is synthesized), for every protocol version. -/
theorem rst_rejection_propagates (s : stream) (frame : RstStreamFrame) (e : GoError)
    (h : (s.receiveStream.HandleRstStreamFrame frame).1 = some e) :
    stream.HandleRstStreamFrame s frame
      = (some e, { s with receiveStream := (s.receiveStream.HandleRstStreamFrame frame).2 })
    ∧ (stream.HandleRstStreamFrame s frame).2.sendStream = s.sendStream := by
  cases h2 : s.receiveStream.HandleRstStreamFrame frame with
  | mk r rs =>
    rw [h2] at h
    simp only at h
    subst h
    simp [stream.HandleRstStreamFrame, h2]

/-- Witness for claim C3: a reset arriving after the receive half finished
cleanly is rejected and propagated unchanged. -/
theorem rst_rejection_propagates_witness :
    stream.HandleRstStreamFrame wRejStream ⟨4, 3, 10⟩
      = (some GoError.resetAfterFinishedReading,
         { wRejStream with
             receiveStream := (wRejStream.receiveStream.HandleRstStreamFrame ⟨4, 3, 10⟩).2 })
    ∧ (stream.HandleRstStreamFrame wRejStream ⟨4, 3, 10⟩).2.sendStream
        = wRejStream.sendStream :=
  rst_rejection_propagates wRejStream ⟨4, 3, 10⟩ GoError.resetAfterFinishedReading (by decide)

/-- Claim C4: `CloseForShutdown err` performs the abrupt close on both
halves with the identical error value, and the composition layer emits no
peer-visible frame: neither half's queued control frames change and no FIN
is marked on the send half. -/
theorem closeForShutdown_both_halves_no_frames (s : stream) (err : GoError) :
    (stream.CloseForShutdown s err).sendStream = s.sendStream.CloseForShutdown err
    ∧ (stream.CloseForShutdown s err).receiveStream = s.receiveStream.CloseForShutdown err
    ∧ (stream.CloseForShutdown s err).sendStream.closedForShutdown = some err
    ∧ (stream.CloseForShutdown s err).receiveStream.closedForShutdown = some err
    ∧ (stream.CloseForShutdown s err).sendStream.queuedFrames = s.sendStream.queuedFrames
    ∧ (stream.CloseForShutdown s err).receiveStream.queuedFrames = s.receiveStream.queuedFrames
    ∧ (stream.CloseForShutdown s err).sendStream.finishedWriting = s.sendStream.finishedWriting := by
  simp [stream.CloseForShutdown, sendStream.CloseForShutdown, receiveStream.CloseForShutdown]

/-- Claim C5: `Finished` is the pure conjunction of the two halves' finished
predicates, and — under the assumption that each half's finished predicate
is monotone (never reverts from true to false) — once true it stays true. -/
theorem finished_conjunction_and_monotone (s s' : stream)
    (hs : s.sendStream.Finished = true → s'.sendStream.Finished = true)
    (hr : s.receiveStream.Finished = true → s'.receiveStream.Finished = true) :
    stream.Finished s = (s.sendStream.Finished && s.receiveStream.Finished)
    ∧ (stream.Finished s = true → stream.Finished s' = true) := by
  refine ⟨rfl, ?_⟩
  intro h
  simp only [stream.Finished, Bool.and_eq_true] at h ⊢
  exact ⟨hs h.1, hr h.2⟩

/-- Witness for claim C5: instantiated at a concrete stream with both halves
finished. -/
theorem finished_conjunction_and_monotone_witness :
    stream.Finished wFinStream
      = (wFinStream.sendStream.Finished && wFinStream.receiveStream.Finished)
    ∧ (stream.Finished wFinStream = true → stream.Finished wFinStream = true) :=
  finished_conjunction_and_monotone wFinStream wFinStream (by decide) (by decide)

/-- Claim C6: after a first successful `Close`, a second `Close` returns no
error (indistinguishable from idempotent success) and leaves the send half
exactly as the first close left it — in particular it queues no frame and
cannot emit a duplicate FIN. -/
theorem close_twice_idempotent (s : stream) (h : (stream.Close s).1 = none) :
    (stream.Close (stream.Close s).2).1 = none
    ∧ (stream.Close (stream.Close s).2).2.sendStream = (stream.Close s).2.sendStream
    ∧ (stream.Close (stream.Close s).2).2.sendStream.queuedFrames
        = s.sendStream.queuedFrames := by
  cases hc : s.sendStream.canceledWrite with
  | true => simp [stream.Close, sendStream.Close, hc] at h
  | false => simp [stream.Close, sendStream.Close, receiveStream.onClose, hc]

/-- Witness for claim C6: a fresh stream closed twice. -/
theorem close_twice_idempotent_witness :
    (stream.Close (stream.Close wOkStream).2).1 = none
    ∧ (stream.Close (stream.Close wOkStream).2).2.sendStream
        = (stream.Close wOkStream).2.sendStream
    ∧ (stream.Close (stream.Close wOkStream).2).2.sendStream.queuedFrames
        = wOkStream.sendStream.queuedFrames :=
  close_twice_idempotent wOkStream (by decide)

/-- Claim C7: `StreamID` equals the identifier passed at construction, is
served exclusively from the send half (whose identifier equals the receive
half's by construction), and is preserved by every operation of the
composition layer. -/
theorem streamID_constant_from_construction (id : StreamID) (fc : FlowController)
    (v : VersionNumber) (s : stream) (e : GoError) (rf : RstStreamFrame)
    (sf : StopSendingFrame) :
    stream.StreamID (newStream id fc v) = id
    ∧ stream.StreamID s = s.sendStream.StreamID
    ∧ (newStream id fc v).sendStream.StreamID = (newStream id fc v).receiveStream.StreamID
    ∧ stream.StreamID (stream.Close s).2 = stream.StreamID s
    ∧ stream.StreamID (stream.CloseForShutdown s e) = stream.StreamID s
    ∧ stream.StreamID (stream.HandleRstStreamFrame s rf).2 = stream.StreamID s
    ∧ stream.StreamID (stream.HandleStopSendingFrame s sf) = stream.StreamID s := by
  refine ⟨rfl, rfl, rfl, ?_, rfl, ?_, rfl⟩
  · cases hc : s.sendStream.canceledWrite <;>
      simp [stream.Close, sendStream.Close, stream.StreamID, sendStream.StreamID, hc]
  · cases h2 : s.receiveStream.HandleRstStreamFrame rf with
    | mk r rs =>
      cases r with
      | some e2 =>
          simp [stream.HandleRstStreamFrame, h2, stream.StreamID, sendStream.StreamID]
      | none =>
          cases hv : VersionNumber.UsesIETFFrameFormat s.version <;>
            simp [stream.HandleRstStreamFrame, h2, hv, stream.StreamID, sendStream.StreamID,
              stream.HandleStopSendingFrame, sendStream.HandleStopSendingFrame]

/-- Claim C8: every `deadlineError` value reports `Temporary = true` and
`Timeout = true`, on every invocation. -/
theorem deadlineError_temporary_and_timeout (e : deadlineError) :
    e.Temporary = true ∧ e.Timeout = true :=
  ⟨rfl, rfl⟩

/-- Claim C9: every `streamCanceledError` constructed with application error
code `c` reports `Canceled = true`, and its `ErrorCode` accessor returns
exactly `c`, unchanged through the wrapping of the underlying error. -/
theorem streamCanceledError_canceled_and_code (msg : String) (c : ApplicationErrorCode) :
    (streamCanceledError.mk msg c).Canceled = true
    ∧ (streamCanceledError.mk msg c).ErrorCode = c :=
  ⟨rfl, rfl⟩

/-- Claim C10: `newStream` leaves the composite's `version` field at the
zero `VersionNumber` regardless of the version argument, so the
legacy-versus-IETF branch in `HandleRstStreamFrame` is decided by the zero
version: the synthesis outcome is identical for every construction version,
and — the zero version using the IETF frame format — no stop-sending
directive is ever synthesized on a stream built by `newStream`. -/
theorem newStream_version_zero_decides_branch (id : StreamID) (fc : FlowController)
    (v : VersionNumber) (frame : RstStreamFrame) :
    (newStream id fc v).version = 0
    ∧ (stream.HandleRstStreamFrame (newStream id fc v) frame).2.sendStream.stopSendingReceived
        = (stream.HandleRstStreamFrame (newStream id fc 0) frame).2.sendStream.stopSendingReceived
    ∧ (stream.HandleRstStreamFrame (newStream id fc v) frame).2.sendStream.stopSendingReceived
        = [] := by
  refine ⟨rfl, ?_, ?_⟩ <;>
    simp [newStream, newSendStream, newReceiveStream, stream.HandleRstStreamFrame,
      receiveStream.HandleRstStreamFrame, VersionNumber.UsesIETFFrameFormat,
      stream.HandleStopSendingFrame, sendStream.HandleStopSendingFrame]

end QuicGo
